import Mathlib

/-!
Shallow embedding of the story controller in `src/src/App.tsx` of
dzole0311/react-globe, together with theorems settling the spec claims.

The component keeps three pieces of React state relevant to the claims:
`activeLayer` (the spec's `activeChapter`), `visibleId` (the spec's
`visibleChapterId`) and `freeMode`.  Numbers (latitudes, longitudes, zooms,
opacities) are modelled as rationals.
-/

/-- The `view` field of a catalog entry: camera target of a chapter. -/
structure View where
  latitude : ℚ
  longitude : ℚ
  zoom : ℚ
deriving DecidableEq, Repr

/-- One catalog entry (`LayerDef` in App.tsx): `url` and `opacity` are the
optional raster-overlay definition. -/
structure LayerDef where
  id : String
  name : String
  url : Option String := none
  opacity : Option ℚ := none
  description : String
  view : View
deriving DecidableEq, Repr

instance : Inhabited LayerDef :=
  ⟨{ id := "", name := "", description := "", view := ⟨0, 0, 0⟩ }⟩

/-- The fixed catalog `LAYERS` of App.tsx, transcribed entry for entry. -/
def LAYERS : List LayerDef := [
  { id := "intro-globe",
    name := "Full Earth View",
    description := "The story begins with the entire Earth — zoom in to explore specific phenomena.",
    view := { latitude := 0, longitude := 0, zoom := 2 } },
  { id := "total-methane",
    name := "Methane (EPA total)",
    url := some "https://earth.gov/ghgcenter/api/raster/searches/92ef8a307eaf0dd5c1403e04b414b712/tiles/WebMercatorQuad/{z}/{x}/{y}?assets=total-methane&rescale=0,20&colormap_name=epa-ghgi-ch4",
    opacity := some 0.7,
    description := "Global methane emissions from human and natural sources — focusing on the United States.",
    view := { latitude := 37.5, longitude := -95, zoom := 2.8 } },
  { id := "no2-monthly",
    name := "Nitrogen dioxide (NO₂)",
    url := some "https://openveda.cloud/api/raster/searches/54f6090e54cf744b4db5b037be979254/tiles/WebMercatorQuad/{z}/{x}/{y}?assets=cog_default&bidx=1&colormap_name=rdbu_r&rescale=0%2C15000000000000000",
    opacity := some 0.6,
    description := "Satellite-derived NO₂ showing air pollution hotspots — centered on New York.",
    view := { latitude := 40.7128, longitude := -74.006, zoom := 6.5 } },
  { id := "days-above-90f",
    name := "Days above 90°F (CMIP6 SSP245)",
    url := some "https://openveda.cloud/api/raster/searches/05508f8b6bee59b2007bb1a338f64001/tiles/WebMercatorQuad/{z}/{x}/{y}?assets=tmax_above_90&colormap_name=wistia&rescale=0%2C365",
    opacity := some 0.45,
    description := "Projected annual count of days exceeding 90°F under a mid-range scenario.",
    view := { latitude := 25, longitude := -100, zoom := 3.2 } },
  { id := "geoglam",
    name := "Crop conditions (GEOGLAM)",
    url := some "https://openveda.cloud/api/raster/searches/b8b84be08e9be485e882321a29bcc36e/tiles/WebMercatorQuad/{z}/{x}/{y}?assets=cog_default&colormap=%7B%221%22%3A+%5B120%2C+120%2C+120%5D%2C+%222%22%3A+%5B130%2C+65%2C+0%5D%2C+%223%22%3A+%5B66%2C+207%2C+56%5D%2C+%224%22%3A+%5B245%2C+239%2C+0%5D%2C+%225%22%3A+%5B241%2C+89%2C+32%5D%2C+%226%22%3A+%5B168%2C+0%2C+0%5D%2C+%227%22%3A+%5B0%2C+143%2C+201%5D%7D&resampling=nearest",
    opacity := some 0.5,
    description := "Global crop monitoring data showing strong and weak agricultural performance.",
    view := { latitude := 10, longitude := 30, zoom := 2 } },
  { id := "grdi-v1",
    name := "Global deprivation index (GRDI)",
    url := some "https://openveda.cloud/api/raster/searches/2e402f857dd5363f04809920c76793b2/tiles/WebMercatorQuad/{z}/{x}/{y}?assets=cog_default&colormap_name=viridis",
    opacity := some 0.4,
    description := "Mapping global deprivation — focusing on India’s socioeconomic diversity.",
    view := { latitude := 21, longitude := 78, zoom := 3.8 } },
  { id := "poi-showcase",
    name := "Global Points of Interest",
    description := "Cities rendered as glowing points with labels.",
    view := { latitude := 20, longitude := 0, zoom := 1.8 } },
  { id := "finale",
    name := "Back to the Globe",
    description := "Returning to a full-Earth perspective for free exploration.",
    view := { latitude := 0, longitude := 0, zoom := 1.3 } }
]

/-- The React state of `StoryMap` that the claims are about:
`activeLayer` / `visibleId` / `freeMode` of App.tsx. -/
structure SessionState where
  activeLayer : LayerDef
  visibleId : Option String
  freeMode : Bool
deriving DecidableEq, Repr

/-- Scroll direction of a react-scrollama step event. -/
inductive Direction
  | up
  | down
deriving DecidableEq, Repr

/-- A react-scrollama `StepEnterEvent` as used by the app: the payload
`data` is `\x7b id \x7d`, plus the direction and step index the library supplies
(the handler never reads the latter two). -/
structure StepEnterEvent where
  dataId : String
  direction : Direction
  index : Nat
deriving DecidableEq, Repr

/-- `handleStepEnter` of App.tsx: ignore the event in free mode, otherwise
look the payload id up in `LAYERS`; on a hit set both `activeLayer` and
`visibleId`, on a miss do nothing. -/
def handleStepEnter (e : StepEnterEvent) (s : SessionState) : SessionState :=
  if s.freeMode then s
  else
    match LAYERS.find? (fun l => l.id == e.dataId) with
    | some next => { s with activeLayer := next, visibleId := some e.dataId }
    | none => s

/-- The free-mode chapter picker of App.tsx renders one clickable element per
entry of `LAYERS`, whose onClick is `setActiveLayer l` (and nothing else:
`visibleId` is not touched).  Invoking the picker by chapter id therefore
sets `activeLayer` to the matching catalog entry, and an id with no catalog
entry has no clickable element at all, hence leaves the state unchanged. -/
def selectChapter (chapterId : String) (s : SessionState) : SessionState :=
  match LAYERS.find? (fun l => l.id == chapterId) with
  | some l => { s with activeLayer := l }
  | none => s

/-- The free-mode toggle buttons of App.tsx: onClick is
`setFreeMode (v => not v)`, nothing else. -/
def toggleFreeMode (s : SessionState) : SessionState :=
  { s with freeMode := !s.freeMode }

/-- C1: for every chapter id absent from the catalog `LAYERS`, both a scroll
step-entered notification (`handleStepEnter`) and a free-mode selection
(`selectChapter`) are silent no-ops: the whole session state — in
particular `activeLayer` and `visibleId` — is unchanged. -/
theorem c1_unknown_id_noop (chapterId : String) (d : Direction) (i : Nat)
    (s : SessionState) (h : ∀ l ∈ LAYERS, l.id ≠ chapterId) :
    handleStepEnter ⟨chapterId, d, i⟩ s = s ∧ selectChapter chapterId s = s := by
  have hf : LAYERS.find? (fun l => l.id == chapterId) = none := by
    rw [List.find?_eq_none]
    intro l hl
    simpa using h l hl
  constructor
  · unfold handleStepEnter
    rw [hf]
    split <;> rfl
  · unfold selectChapter
    rw [hf]

/-- Witness for C1 at the concrete unknown id "atlantis". -/
theorem c1_unknown_id_noop_witness :
    (∀ l ∈ LAYERS, l.id ≠ "atlantis") ∧
      (handleStepEnter ⟨"atlantis", Direction.down, 0⟩
          ⟨{ id := "x", name := "x", description := "x", view := ⟨0, 0, 0⟩ }, none, false⟩ =
        ⟨{ id := "x", name := "x", description := "x", view := ⟨0, 0, 0⟩ }, none, false⟩ ∧
      selectChapter "atlantis"
          ⟨{ id := "x", name := "x", description := "x", view := ⟨0, 0, 0⟩ }, none, false⟩ =
        ⟨{ id := "x", name := "x", description := "x", view := ⟨0, 0, 0⟩ }, none, false⟩) :=
  ⟨by decide, c1_unknown_id_noop "atlantis" Direction.down 0 _ (by decide)⟩

/-- C2: while `freeMode` is true, processing a step-entered notification
never changes the session state, for every payload id (catalog or not). -/
theorem c2_free_mode_ignores_steps (e : StepEnterEvent) (s : SessionState)
    (h : s.freeMode = true) : handleStepEnter e s = s := by
  unfold handleStepEnter
  rw [h]
  rfl

/-- Witness for C2 at a catalog id. -/
theorem c2_free_mode_ignores_steps_witness :
    ((⟨{ id := "x", name := "x", description := "x", view := ⟨0, 0, 0⟩ }, none, true⟩ :
        SessionState).freeMode = true) ∧
      handleStepEnter ⟨"total-methane", Direction.down, 1⟩
          ⟨{ id := "x", name := "x", description := "x", view := ⟨0, 0, 0⟩ }, none, true⟩ =
        ⟨{ id := "x", name := "x", description := "x", view := ⟨0, 0, 0⟩ }, none, true⟩ :=
  ⟨rfl, c2_free_mode_ignores_steps ⟨"total-methane", Direction.down, 1⟩ _ rfl⟩

/-- C9: `toggleFreeMode` flips `freeMode` and changes nothing else:
`activeLayer` and `visibleId` keep their values. -/
theorem c9_toggle_free_mode_frame (s : SessionState) :
    (toggleFreeMode s).freeMode = !s.freeMode ∧
      (toggleFreeMode s).activeLayer = s.activeLayer ∧
      (toggleFreeMode s).visibleId = s.visibleId :=
  ⟨rfl, rfl, rfl⟩

/-- C10: the outcome of a step-entered notification depends only on the
payload chapter id: two events with the same `dataId` produce the same
state, whatever their scroll direction and step index. -/
theorem c10_direction_index_irrelevant (e₁ e₂ : StepEnterEvent)
    (s : SessionState) (h : e₁.dataId = e₂.dataId) :
    handleStepEnter e₁ s = handleStepEnter e₂ s := by
  unfold handleStepEnter
  rw [h]

/-- Witness for C10: same payload id, opposite directions, different indices. -/
theorem c10_direction_index_irrelevant_witness :
    ((⟨"total-methane", Direction.up, 0⟩ : StepEnterEvent).dataId =
        (⟨"total-methane", Direction.down, 7⟩ : StepEnterEvent).dataId) ∧
      handleStepEnter ⟨"total-methane", Direction.up, 0⟩
          ⟨{ id := "x", name := "x", description := "x", view := ⟨0, 0, 0⟩ }, none, false⟩ =
        handleStepEnter ⟨"total-methane", Direction.down, 7⟩
          ⟨{ id := "x", name := "x", description := "x", view := ⟨0, 0, 0⟩ }, none, false⟩ :=
  ⟨rfl, c10_direction_index_irrelevant _ _ _ rfl⟩

/-- C5 counterexample: `selectChapter` does not reproduce the full effect of
`handleStepEnter` up to the `freeMode` flag: starting from `visibleId = none`
in both modes, selecting "total-methane" in free mode leaves `visibleId`
at `none`, while the story-mode step event sets it to `some "total-methane"`. -/
theorem c5_select_vs_advance_counterexample :
    (selectChapter "total-methane"
        ⟨{ id := "x", name := "x", description := "x", view := ⟨0, 0, 0⟩ }, none, true⟩).visibleId ≠
      (handleStepEnter ⟨"total-methane", Direction.down, 1⟩
        ⟨{ id := "x", name := "x", description := "x", view := ⟨0, 0, 0⟩ }, none, false⟩).visibleId := by
  decide

/-- C5 (amended): `selectChapter` performs the same catalog lookup as
`handleStepEnter` and sets `activeLayer` identically (including the silent
no-op on a miss), but unlike `handleStepEnter` it leaves `visibleId`
unchanged (and `freeMode` unchanged): the two resulting states agree up to
the `freeMode` flag and the `visibleId` field. -/
theorem c5_select_eq_advance_on_active (chapterId : String) (d : Direction)
    (i : Nat) (sF sS : SessionState) (hS : sS.freeMode = false)
    (hA : sF.activeLayer = sS.activeLayer) :
    (selectChapter chapterId sF).activeLayer =
        (handleStepEnter ⟨chapterId, d, i⟩ sS).activeLayer ∧
      (selectChapter chapterId sF).visibleId = sF.visibleId ∧
      (selectChapter chapterId sF).freeMode = sF.freeMode := by
  unfold selectChapter handleStepEnter
  rw [hS]
  simp only [Bool.false_eq_true, if_false]
  cases hfind : LAYERS.find? (fun l => l.id == chapterId) <;>
    simp [hfind, hA]

/-- Witness for C5's amended theorem at the id "no2-monthly". -/
theorem c5_select_eq_advance_on_active_witness :
    ((⟨{ id := "x", name := "x", description := "x", view := ⟨0, 0, 0⟩ }, none, false⟩ :
        SessionState).freeMode = false) ∧
      ((⟨{ id := "x", name := "x", description := "x", view := ⟨0, 0, 0⟩ }, some "y", true⟩ :
        SessionState).activeLayer =
        (⟨{ id := "x", name := "x", description := "x", view := ⟨0, 0, 0⟩ }, none, false⟩ :
        SessionState).activeLayer) ∧
      ((selectChapter "no2-monthly"
          ⟨{ id := "x", name := "x", description := "x", view := ⟨0, 0, 0⟩ }, some "y", true⟩).activeLayer =
        (handleStepEnter ⟨"no2-monthly", Direction.down, 2⟩
          ⟨{ id := "x", name := "x", description := "x", view := ⟨0, 0, 0⟩ }, none, false⟩).activeLayer ∧
      (selectChapter "no2-monthly"
          ⟨{ id := "x", name := "x", description := "x", view := ⟨0, 0, 0⟩ }, some "y", true⟩).visibleId =
        (⟨{ id := "x", name := "x", description := "x", view := ⟨0, 0, 0⟩ }, some "y", true⟩ :
          SessionState).visibleId ∧
      (selectChapter "no2-monthly"
          ⟨{ id := "x", name := "x", description := "x", view := ⟨0, 0, 0⟩ }, some "y", true⟩).freeMode =
        (⟨{ id := "x", name := "x", description := "x", view := ⟨0, 0, 0⟩ }, some "y", true⟩ :
          SessionState).freeMode) :=
  ⟨rfl, rfl, c5_select_eq_advance_on_active "no2-monthly" Direction.down 2 _ _ rfl rfl⟩

/-! ## Idle auto-rotation (App.tsx lines 110-175)

The rotation `useEffect` has deps `[mapLoaded, activeLayer.id]`.  Its body:
for a non-intro chapter it calls `map.stop()` and registers nothing; for the
intro chapter it creates a fresh `userInteracting = false`, registers six
listeners (`mousedown → pause`, `mouseup`/`dragend`/`pitchend`/`rotateend`
→ `resume`, `moveend → spinGlobe`), calls `spinGlobe()` once, and returns a
cleanup that removes all six listeners and calls `map.stop()`.  We model the
map's listener table, the closure variable `userInteracting`, whether a
rotation ease is in flight, and the camera's zoom and longitude. -/

/-- The constant `secondsPerRevolution = 120` of the rotation effect. -/
def secondsPerRevolution : ℚ := 120

/-- The constant `maxSpinZoom = 5` of the rotation effect. -/
def maxSpinZoom : ℚ := 5

/-- The constant `slowSpinZoom = 3` of the rotation effect. -/
def slowSpinZoom : ℚ := 3

/-- The argument record of a `map.easeTo` call issued by `spinGlobe`. -/
structure EaseToCmd where
  centerLng : ℚ
  duration : ℚ
  easing : ℚ → ℚ
  essential : Bool

/-- The body of `spinGlobe` (App.tsx lines 126-146), as the `easeTo`
command it issues, if any: bail out when spinning is disabled or the user is
interacting, bail out at `zoom ≥ maxSpinZoom`, otherwise rotate the center
westward by `360 / secondsPerRevolution` degrees (scaled down linearly by
`(maxSpinZoom - zoom) / (maxSpinZoom - slowSpinZoom)` above `slowSpinZoom`)
over a 1000 ms step with the identity easing. -/
def spinGlobeCmd (spinEnabled userInteracting : Bool) (zoom lng : ℚ) :
    Option EaseToCmd :=
  if !spinEnabled || userInteracting then none
  else if zoom ≥ maxSpinZoom then none
  else
    let distancePerSecond : ℚ := 360 / secondsPerRevolution
    let distancePerSecond : ℚ :=
      if zoom > slowSpinZoom then
        distancePerSecond *
          max 0 ((maxSpinZoom - zoom) / (maxSpinZoom - slowSpinZoom))
      else distancePerSecond
    some { centerLng := lng - distancePerSecond,
           duration := 1000,
           easing := fun n => n,
           essential := true }

/-- The map-engine state the rotation effect touches: one flag per
registered listener, the effect closure's `userInteracting` variable,
whether a rotation ease is in flight, and the camera zoom / longitude. -/
structure MapState where
  onMousedown : Bool
  onMouseup : Bool
  onDragend : Bool
  onPitchend : Bool
  onRotateend : Bool
  onMoveend : Bool
  userInteracting : Bool
  animating : Bool
  zoom : ℚ
  lng : ℚ
deriving DecidableEq, Repr

/-- `map.stop()`: halt any in-flight rotation ease. -/
def MapState.stop (m : MapState) : MapState := { m with animating := false }

/-- Run `spinGlobe()` against the map: if it issues an `easeTo` command a
rotation ease is now in flight; otherwise nothing changes.  Returns the
issued command alongside the new state. -/
def MapState.spinGlobe (m : MapState) : MapState × Option EaseToCmd :=
  match spinGlobeCmd true m.userInteracting m.zoom m.lng with
  | some cmd => ({ m with animating := true }, some cmd)
  | none => (m, none)

/-- The `pause` handler: set `userInteracting := true` and `map.stop()`. -/
def MapState.pause (m : MapState) : MapState :=
  MapState.stop { m with userInteracting := true }

/-- The `resume` handler: set `userInteracting := false`, then `spinGlobe()`. -/
def MapState.resume (m : MapState) : MapState × Option EaseToCmd :=
  MapState.spinGlobe { m with userInteracting := false }

/-- The map-engine events the rotation effect listens for. -/
inductive MapEvent
  | mousedown
  | mouseup
  | dragend
  | pitchend
  | rotateend
  | moveend
deriving DecidableEq, Repr

/-- Deliver one map event: the registered handler (if any) runs, per the six
`map.on` registrations of the intro effect; with no listener registered the
event changes nothing.  Returns the `easeTo` command issued, if any. -/
def dispatch (m : MapState) (e : MapEvent) : MapState × Option EaseToCmd :=
  match e with
  | .mousedown => if m.onMousedown then (m.pause, none) else (m, none)
  | .mouseup => if m.onMouseup then m.resume else (m, none)
  | .dragend => if m.onDragend then m.resume else (m, none)
  | .pitchend => if m.onPitchend then m.resume else (m, none)
  | .rotateend => if m.onRotateend then m.resume else (m, none)
  | .moveend => if m.onMoveend then m.spinGlobe else (m, none)

/-- What the last run of the rotation effect returned to React: either no
cleanup (the early returns and the non-intro branch) or the intro cleanup
that removes the six listeners and stops the map. -/
inductive Cleanup
  | noCleanup
  | introCleanup
deriving DecidableEq, Repr

/-- The six `map.on` registrations of the intro branch, together with the
fresh `userInteracting = false` of the new effect closure. -/
def registerIntroListeners (m : MapState) : MapState :=
  { m with onMousedown := true, onMouseup := true, onDragend := true,
           onPitchend := true, onRotateend := true, onMoveend := true,
           userInteracting := false }

/-- One run of the rotation effect body for the current dep values
`(mapLoaded, activeLayer.id)`: early return before the map is loaded;
`map.stop()` and no registrations for a non-intro chapter; for the intro
chapter register the six listeners, call `spinGlobe()` once and hand React
the intro cleanup. -/
def runRotationEffect (mapLoaded : Bool) (id : String) (m : MapState) :
    MapState × Cleanup :=
  if !mapLoaded then (m, Cleanup.noCleanup)
  else if id ≠ "intro-globe" then (m.stop, Cleanup.noCleanup)
  else ((registerIntroListeners m).spinGlobe.1, Cleanup.introCleanup)

/-- Run a previously returned effect cleanup: the intro cleanup executes the
six `map.off` calls and `map.stop()`. -/
def applyCleanup : Cleanup → MapState → MapState
  | Cleanup.noCleanup, m => m
  | Cleanup.introCleanup, m =>
      MapState.stop
        { m with onMousedown := false, onMouseup := false, onDragend := false,
                 onPitchend := false, onRotateend := false, onMoveend := false }

/-- The map state paired with the pending cleanup of the last effect run. -/
structure EffectState where
  map : MapState
  cleanup : Cleanup
deriving DecidableEq, Repr

/-- An observable step of the rotation subsystem: either the effect deps
changed (React runs the pending cleanup, then the effect body), or a map
event is delivered to whatever listeners are registered. -/
inductive RotStep
  | depsChange (mapLoaded : Bool) (id : String)
  | mapEvent (e : MapEvent)

/-- Process one step of the rotation subsystem. -/
def stepRot (st : EffectState) : RotStep → EffectState
  | RotStep.depsChange ml id =>
      let m₁ := applyCleanup st.cleanup st.map
      let p := runRotationEffect ml id m₁
      ⟨p.1, p.2⟩
  | RotStep.mapEvent e => ⟨(dispatch st.map e).1, st.cleanup⟩

/-- Process a sequence of rotation-subsystem steps. -/
def runRot (st : EffectState) (tr : List RotStep) : EffectState :=
  tr.foldl stepRot st

/-- Before the component's first effect run: no listeners registered, no
rotation in flight, camera at the initial view of `LAYERS` (zoom 2, lng 0). -/
def initialEffectState : EffectState :=
  ⟨{ onMousedown := false, onMouseup := false, onDragend := false,
     onPitchend := false, onRotateend := false, onMoveend := false,
     userInteracting := false, animating := false, zoom := 2, lng := 0 },
   Cleanup.noCleanup⟩

/-- All six rotation listeners are deregistered. -/
def listenersOff (m : MapState) : Bool :=
  !m.onMousedown && !m.onMouseup && !m.onDragend && !m.onPitchend &&
    !m.onRotateend && !m.onMoveend

/-- All six rotation listeners are registered. -/
def listenersOn (m : MapState) : Bool :=
  m.onMousedown && m.onMouseup && m.onDragend && m.onPitchend &&
    m.onRotateend && m.onMoveend

/-- Invariant of the rotation subsystem: the intro cleanup is pending
exactly while the six listeners are up, and with no cleanup pending the
listeners are all down and no rotation ease is in flight. -/
def RotInv (st : EffectState) : Prop :=
  (st.cleanup = Cleanup.introCleanup → listenersOn st.map = true) ∧
    (st.cleanup = Cleanup.noCleanup →
      listenersOff st.map = true ∧ st.map.animating = false)

/-- The second component of `MapState.spinGlobe` is exactly the command
`spinGlobeCmd` computes. -/
theorem spinGlobe_snd (m : MapState) :
    (m.spinGlobe).2 = spinGlobeCmd true m.userInteracting m.zoom m.lng := by
  unfold MapState.spinGlobe
  cases spinGlobeCmd true m.userInteracting m.zoom m.lng <;> rfl

/-- `spinGlobe` never touches `userInteracting`. -/
theorem spinGlobe_fst_ui (m : MapState) :
    (m.spinGlobe).1.userInteracting = m.userInteracting := by
  unfold MapState.spinGlobe
  cases spinGlobeCmd true m.userInteracting m.zoom m.lng <;> rfl

/-- `spinGlobe` never touches the listener table. -/
theorem spinGlobe_fst_listenersOn (m : MapState) :
    listenersOn (m.spinGlobe).1 = listenersOn m := by
  unfold MapState.spinGlobe
  cases spinGlobeCmd true m.userInteracting m.zoom m.lng <;> rfl

/-- Delivering a map event never changes the listener table. -/
theorem dispatch_listenersOn (m : MapState) (e : MapEvent) :
    listenersOn (dispatch m e).1 = listenersOn m := by
  have hres : listenersOn (m.resume).1 = listenersOn m :=
    spinGlobe_fst_listenersOn { m with userInteracting := false }
  have hsp : listenersOn (m.spinGlobe).1 = listenersOn m :=
    spinGlobe_fst_listenersOn m
  cases e with
  | mousedown =>
      by_cases h : m.onMousedown = true
      · simp only [dispatch]
        rw [if_pos h]
        rfl
      · simp only [dispatch]
        rw [if_neg h]
  | mouseup =>
      by_cases h : m.onMouseup = true
      · simp only [dispatch]
        rw [if_pos h]
        exact hres
      · simp only [dispatch]
        rw [if_neg h]
  | dragend =>
      by_cases h : m.onDragend = true
      · simp only [dispatch]
        rw [if_pos h]
        exact hres
      · simp only [dispatch]
        rw [if_neg h]
  | pitchend =>
      by_cases h : m.onPitchend = true
      · simp only [dispatch]
        rw [if_pos h]
        exact hres
      · simp only [dispatch]
        rw [if_neg h]
  | rotateend =>
      by_cases h : m.onRotateend = true
      · simp only [dispatch]
        rw [if_pos h]
        exact hres
      · simp only [dispatch]
        rw [if_neg h]
  | moveend =>
      by_cases h : m.onMoveend = true
      · simp only [dispatch]
        rw [if_pos h]
        exact hsp
      · simp only [dispatch]
        rw [if_neg h]

/-- With all six listeners deregistered, delivering any map event is a
complete no-op and issues no command. -/
theorem dispatch_no_listeners (m : MapState) (e : MapEvent)
    (h : listenersOff m = true) : dispatch m e = (m, none) := by
  simp only [listenersOff, Bool.and_eq_true, Bool.not_eq_true'] at h
  obtain ⟨⟨⟨⟨⟨h1, h2⟩, h3⟩, h4⟩, h5⟩, h6⟩ := h
  cases e <;> simp [dispatch, h1, h2, h3, h4, h5, h6]

/-- `RotInv` holds before the first effect run. -/
theorem rotInv_initial : RotInv initialEffectState := by
  constructor
  · intro h
    exact absurd h (by decide)
  · intro _
    exact ⟨rfl, rfl⟩

/-- Every step of the rotation subsystem preserves `RotInv`. -/
theorem rotInv_step (st : EffectState) (t : RotStep) (h : RotInv st) :
    RotInv (stepRot st t) := by
  obtain ⟨hOn, hOff⟩ := h
  cases t with
  | depsChange ml id =>
      have hm1 : listenersOff (applyCleanup st.cleanup st.map) = true ∧
          (applyCleanup st.cleanup st.map).animating = false := by
        cases hc : st.cleanup with
        | noCleanup => simpa [applyCleanup] using hOff hc
        | introCleanup => simp [applyCleanup, listenersOff, MapState.stop]
      cases ml with
      | false =>
          have hEq : stepRot st (RotStep.depsChange false id) =
              ⟨applyCleanup st.cleanup st.map, Cleanup.noCleanup⟩ := rfl
          rw [hEq]
          exact ⟨(fun hcl => nomatch hcl), fun _ => hm1⟩
      | true =>
          by_cases hid : id = "intro-globe"
          · subst hid
            have hEq : stepRot st (RotStep.depsChange true "intro-globe") =
                ⟨(registerIntroListeners (applyCleanup st.cleanup st.map)).spinGlobe.1,
                  Cleanup.introCleanup⟩ := rfl
            rw [hEq]
            refine ⟨fun _ => ?_, (fun hcl => nomatch hcl)⟩
            rw [spinGlobe_fst_listenersOn]
            rfl
          · have hEq : stepRot st (RotStep.depsChange true id) =
                ⟨(applyCleanup st.cleanup st.map).stop, Cleanup.noCleanup⟩ := by
              simp [stepRot, runRotationEffect, hid]
            rw [hEq]
            refine ⟨(fun hcl => nomatch hcl), fun _ => ⟨?_, rfl⟩⟩
            simpa [listenersOff, MapState.stop] using hm1.1
  | mapEvent e =>
      have hEq : stepRot st (RotStep.mapEvent e) =
          ⟨(dispatch st.map e).1, st.cleanup⟩ := rfl
      rw [hEq]
      cases hc : st.cleanup with
      | noCleanup =>
          have heq := dispatch_no_listeners st.map e (hOff hc).1
          rw [heq]
          exact ⟨(fun hcl => nomatch hcl), fun _ => hOff hc⟩
      | introCleanup =>
          refine ⟨fun _ => ?_, (fun hcl => nomatch hcl)⟩
          rw [dispatch_listenersOn]
          exact hOn hc

/-- `RotInv` holds after any finite run of the rotation subsystem. -/
theorem rotInv_runRot (tr : List RotStep) (st : EffectState) (h : RotInv st) :
    RotInv (runRot st tr) := by
  induction tr generalizing st with
  | nil => exact h
  | cons t ts ih => exact ih (stepRot st t) (rotInv_step st t h)

/-- A deps change to a non-intro chapter leaves no cleanup pending. -/
theorem stepRot_leave_cleanup (st : EffectState) (ml : Bool) (id : String)
    (h : id ≠ "intro-globe") :
    (stepRot st (RotStep.depsChange ml id)).cleanup = Cleanup.noCleanup := by
  simp only [stepRot, runRotationEffect]
  cases ml <;> simp [h]

/-- C4: when the active chapter changes away from the intro chapter, the
rotation subsystem is torn down at once: after any finite run of the
subsystem (deps changes interleaved with arbitrary map events) whose last
step is a deps change to a non-intro chapter id, all six interaction
listeners registered on entering the intro chapter (mousedown, mouseup,
dragend, pitchend, rotateend, moveend) are deregistered and no rotation
step is in flight or scheduled — zero listeners leak across any number of
enter/leave cycles. -/
theorem c4_leave_intro_no_leak (tr : List RotStep) (ml : Bool) (id : String)
    (h : id ≠ "intro-globe") :
    listenersOff (runRot initialEffectState
        (tr ++ [RotStep.depsChange ml id])).map = true ∧
      (runRot initialEffectState
        (tr ++ [RotStep.depsChange ml id])).map.animating = false := by
  have hinv : RotInv (runRot initialEffectState tr) :=
    rotInv_runRot tr initialEffectState rotInv_initial
  have hstep : RotInv (stepRot (runRot initialEffectState tr)
      (RotStep.depsChange ml id)) :=
    rotInv_step (runRot initialEffectState tr) (RotStep.depsChange ml id) hinv
  have hcl : (stepRot (runRot initialEffectState tr)
      (RotStep.depsChange ml id)).cleanup = Cleanup.noCleanup :=
    stepRot_leave_cleanup (runRot initialEffectState tr) ml id h
  have hfin : runRot initialEffectState (tr ++ [RotStep.depsChange ml id]) =
      stepRot (runRot initialEffectState tr) (RotStep.depsChange ml id) := by
    simp [runRot, List.foldl_append]
  rw [hfin]
  exact hstep.2 hcl

/-- Witness for C4: enter the intro chapter (listeners up, a rotation step
in flight), deliver a map event, then leave for "total-methane". -/
theorem c4_leave_intro_no_leak_witness :
    ("total-methane" ≠ "intro-globe") ∧
      (listenersOff (runRot initialEffectState
          ([RotStep.depsChange true "intro-globe", RotStep.mapEvent MapEvent.moveend] ++
            [RotStep.depsChange true "total-methane"])).map = true ∧
        (runRot initialEffectState
          ([RotStep.depsChange true "intro-globe", RotStep.mapEvent MapEvent.moveend] ++
            [RotStep.depsChange true "total-methane"])).map.animating = false) :=
  ⟨by decide,
    c4_leave_intro_no_leak
      [RotStep.depsChange true "intro-globe", RotStep.mapEvent MapEvent.moveend]
      true "total-methane" (by decide)⟩

/-- `spinGlobeCmd` issues a command exactly below the max-spin zoom (when
spinning is enabled and the user is not interacting). -/
theorem spinGlobeCmd_isSome_iff (zoom lng : ℚ) :
    (spinGlobeCmd true false zoom lng).isSome ↔ zoom < 5 := by
  unfold spinGlobeCmd maxSpinZoom
  rw [if_neg (by decide)]
  by_cases h : (5 : ℚ) ≤ zoom
  · rw [if_pos h]
    simpa using not_lt.mpr h
  · rw [if_neg h]
    simpa using lt_of_not_le h

/-- C3: while the intro chapter is active and the loop is spinning (spin
enabled, user not interacting), the step `spinGlobe` schedules is governed
by the zoom thresholds: at `zoom ≥ 5` no step is scheduled at all; for
`3 < zoom < 5` the step moves the center westward by an increment that is
strictly between 0 and 3 degrees per second, namely `360 / 120` scaled by
`(5 - zoom) / (5 - 3)`; at `zoom ≤ 3` the increment is exactly
`360 / 120 = 3` degrees per second; every issued step runs for 1000 ms
with the linear (identity) easing. -/
theorem c3_intro_rotation_rate (zoom lng : ℚ) :
    (5 ≤ zoom → spinGlobeCmd true false zoom lng = none) ∧
      (3 < zoom → zoom < 5 →
        spinGlobeCmd true false zoom lng =
            some { centerLng := lng - 360 / 120 * ((5 - zoom) / (5 - 3)),
                   duration := 1000, easing := fun n => n, essential := true } ∧
          0 < 360 / 120 * ((5 - zoom) / (5 - 3) : ℚ) ∧
          360 / 120 * ((5 - zoom) / (5 - 3) : ℚ) < 3) ∧
      (zoom ≤ 3 →
        spinGlobeCmd true false zoom lng =
            some { centerLng := lng - 360 / 120,
                   duration := 1000, easing := fun n => n, essential := true } ∧
          (360 / 120 : ℚ) = 3) := by
  refine ⟨?_, ?_, ?_⟩
  · intro h
    unfold spinGlobeCmd maxSpinZoom
    rw [if_neg (by decide), if_pos h]
  · intro h1 h2
    have hnn : (0 : ℚ) ≤ (5 - zoom) / (5 - 3) := by
      apply div_nonneg <;> linarith
    have hpos : (0 : ℚ) < (5 - zoom) / (5 - 3) := by
      apply div_pos <;> linarith
    have hlt : ((5 - zoom) / (5 - 3) : ℚ) < 1 := by
      rw [div_lt_one (by norm_num)]
      linarith
    refine ⟨?_, ?_, ?_⟩
    · unfold spinGlobeCmd secondsPerRevolution maxSpinZoom slowSpinZoom
      rw [if_neg (by decide), if_neg (not_le.mpr h2)]
      simp only [if_pos h1, max_eq_right hnn]
    · have h360 : (360 / 120 : ℚ) = 3 := by norm_num
      rw [h360]
      exact mul_pos (by norm_num) hpos
    · have h360 : (360 / 120 : ℚ) = 3 := by norm_num
      rw [h360]
      nlinarith
  · intro h
    refine ⟨?_, by norm_num⟩
    unfold spinGlobeCmd secondsPerRevolution maxSpinZoom slowSpinZoom
    rw [if_neg (by decide), if_neg (not_le.mpr (by linarith : zoom < 5))]
    simp only [if_neg (not_lt.mpr h)]

/-- Witness for C3 at zooms 6 (no step), 4 (scaled step) and 2 (full step). -/
theorem c3_intro_rotation_rate_witness :
    ((5 : ℚ) ≤ 6 ∧ spinGlobeCmd true false 6 10 = none) ∧
      ((3 : ℚ) < 4 ∧ (4 : ℚ) < 5 ∧
        (spinGlobeCmd true false 4 10 =
            some { centerLng := 10 - 360 / 120 * ((5 - 4) / (5 - 3)),
                   duration := 1000, easing := fun n => n, essential := true } ∧
          0 < 360 / 120 * ((5 - 4) / (5 - 3) : ℚ) ∧
          360 / 120 * ((5 - 4) / (5 - 3) : ℚ) < 3)) ∧
      ((2 : ℚ) ≤ 3 ∧
        (spinGlobeCmd true false 2 10 =
            some { centerLng := 10 - 360 / 120,
                   duration := 1000, easing := fun n => n, essential := true } ∧
          (360 / 120 : ℚ) = 3)) :=
  ⟨⟨by norm_num, (c3_intro_rotation_rate 6 10).1 (by norm_num)⟩,
    ⟨by norm_num, by norm_num,
      (c3_intro_rotation_rate 4 10).2.1 (by norm_num) (by norm_num)⟩,
    ⟨by norm_num, (c3_intro_rotation_rate 2 10).2.2 (by norm_num)⟩⟩

/-- The `resume` handler leaves `userInteracting` false. -/
theorem resume_ui (m : MapState) : (m.resume).1.userInteracting = false := by
  unfold MapState.resume
  rw [spinGlobe_fst_ui]

/-- The command `resume` issues is `spinGlobeCmd` with no interaction. -/
theorem resume_snd (m : MapState) :
    (m.resume).2 = spinGlobeCmd true false m.zoom m.lng := by
  unfold MapState.resume
  rw [spinGlobe_snd]

/-- C8: the intro auto-rotation state machine: with the six listeners
registered, a pointer-down transitions to paused (`userInteracting` true,
the in-flight ease stopped, no step issued), while paused even a completed
camera move (`moveend`) issues no step and changes nothing, and pointer-up
or the end of a drag, pitch or rotate gesture transitions back to spinning
(`userInteracting` false) with a step issued exactly when the zoom is below
the max-spin threshold 5. -/
theorem c8_pause_resume_machine (m : MapState)
    (hmd : m.onMousedown = true) (hmu : m.onMouseup = true)
    (hde : m.onDragend = true) (hpe : m.onPitchend = true)
    (hre : m.onRotateend = true) (hme : m.onMoveend = true) :
    ((dispatch m MapEvent.mousedown).1.userInteracting = true ∧
      (dispatch m MapEvent.mousedown).1.animating = false ∧
      (dispatch m MapEvent.mousedown).2 = none) ∧
      (m.userInteracting = true → dispatch m MapEvent.moveend = (m, none)) ∧
      (∀ e : MapEvent,
        e = MapEvent.mouseup ∨ e = MapEvent.dragend ∨ e = MapEvent.pitchend ∨
          e = MapEvent.rotateend →
        (dispatch m e).1.userInteracting = false ∧
          ((dispatch m e).2.isSome ↔ m.zoom < 5)) := by
  have hfacts : (m.resume).1.userInteracting = false ∧
      ((m.resume).2.isSome ↔ m.zoom < 5) := by
    refine ⟨resume_ui m, ?_⟩
    rw [resume_snd]
    exact spinGlobeCmd_isSome_iff m.zoom m.lng
  refine ⟨⟨?_, ?_, ?_⟩, ?_, ?_⟩
  · simp only [dispatch]
    rw [if_pos hmd]
    rfl
  · simp only [dispatch]
    rw [if_pos hmd]
    rfl
  · simp only [dispatch]
    rw [if_pos hmd]
  · intro hui
    have hnone : spinGlobeCmd true m.userInteracting m.zoom m.lng = none := by
      rw [hui]
      rfl
    simp only [dispatch]
    rw [if_pos hme]
    simp only [MapState.spinGlobe, hnone]
  · intro e he
    rcases he with h | h | h | h
    · subst h
      simp only [dispatch]
      rw [if_pos hmu]
      exact hfacts
    · subst h
      simp only [dispatch]
      rw [if_pos hde]
      exact hfacts
    · subst h
      simp only [dispatch]
      rw [if_pos hpe]
      exact hfacts
    · subst h
      simp only [dispatch]
      rw [if_pos hre]
      exact hfacts

/-- Witness for C8 with all listeners registered, `userInteracting` true, a
step in flight, zoom 2. -/
theorem c8_pause_resume_machine_witness :
    ((dispatch ⟨true, true, true, true, true, true, true, true, 2, 0⟩
        MapEvent.mousedown).1.userInteracting = true ∧
      (dispatch ⟨true, true, true, true, true, true, true, true, 2, 0⟩
        MapEvent.mousedown).1.animating = false ∧
      (dispatch ⟨true, true, true, true, true, true, true, true, 2, 0⟩
        MapEvent.mousedown).2 = none) ∧
      (dispatch ⟨true, true, true, true, true, true, true, true, 2, 0⟩
          MapEvent.moveend =
        (⟨true, true, true, true, true, true, true, true, 2, 0⟩, none)) ∧
      ((dispatch ⟨true, true, true, true, true, true, true, true, 2, 0⟩
          MapEvent.mouseup).1.userInteracting = false ∧
        ((dispatch ⟨true, true, true, true, true, true, true, true, 2, 0⟩
            MapEvent.mouseup).2.isSome ↔
          (⟨true, true, true, true, true, true, true, true, 2, 0⟩ :
            MapState).zoom < 5)) := by
  have h := c8_pause_resume_machine ⟨true, true, true, true, true, true, true, true, 2, 0⟩
    rfl rfl rfl rfl rfl rfl
  exact ⟨h.1, h.2.1 rfl, h.2.2 MapEvent.mouseup (Or.inl rfl)⟩

/-! ## Camera transition and overlay rendering (App.tsx lines 179-272, 309-315) -/

/-- The argument record of the `map.flyTo` call of the camera effect. -/
structure FlyToCmd where
  centerLng : ℚ
  centerLat : ℚ
  zoom : ℚ
  pitch : ℚ
  bearing : ℚ
  speed : ℚ
  curve : ℚ
  easing : ℚ → ℚ

/-- The `flyTo` call issued for a given active layer (App.tsx lines
182-190): the chapter's view as center and zoom, pitch 20, bearing 0,
speed 0.6, curve 1.4, cubic ease-out easing. -/
def flyToCmd (l : LayerDef) : FlyToCmd :=
  { centerLng := l.view.longitude,
    centerLat := l.view.latitude,
    zoom := l.view.zoom,
    pitch := 20,
    bearing := 0,
    speed := 0.6,
    curve := 1.4,
    easing := fun t => 1 - (1 - t) ^ 3 }

/-- The camera `useEffect` has dependency list `[activeLayer]` and issues
one `flyTo` per run: over a history of successive `activeLayer` values it
emits one command per change, in order. -/
def flyToEffect (changes : List LayerDef) : List FlyToCmd :=
  changes.map flyToCmd

/-- C6: on every change of the active chapter exactly one animated camera
move is issued — the emitted command list has exactly one entry per change
— and each command targets the new chapter's view (longitude, latitude,
zoom) with the fixed pitch 20, bearing 0, and the cubic ease-out easing
`t ↦ 1 - (1 - t)^3`. -/
theorem c6_one_fly_to_per_change (changes : List LayerDef) :
    (flyToEffect changes).length = changes.length ∧
      List.Forall₂ (fun (l : LayerDef) (cmd : FlyToCmd) =>
        cmd.centerLng = l.view.longitude ∧ cmd.centerLat = l.view.latitude ∧
          cmd.zoom = l.view.zoom ∧ cmd.pitch = 20 ∧ cmd.bearing = 0 ∧
          cmd.easing = fun t => 1 - (1 - t) ^ 3) changes (flyToEffect changes) := by
  constructor
  · simp [flyToEffect]
  · induction changes with
    | nil => exact List.Forall₂.nil
    | cons l ls ih => exact List.Forall₂.cons ⟨rfl, rfl, rfl, rfl, rfl, rfl⟩ ih

/-- The raster overlay of App.tsx lines 309-313: rendered when
`activeLayer.url` is truthy (present and nonempty), with paint opacity
`activeLayer.opacity ?? 0.6`.  The value is the rendered opacity. -/
def renderRaster (l : LayerDef) : Option ℚ :=
  match l.url with
  | some u => if u = "" then none else some (l.opacity.getD 0.6)
  | none => none

/-- `renderCountryMask` of App.tsx lines 193-226: nothing in free mode,
nothing unless the id is "total-methane" or "grdi-v1" (the JS
`includes`), otherwise the spotlight mask for country code "USA"
("total-methane") or "IND" ("grdi-v1").  The value is the highlighted
country code. -/
def renderCountryMask (l : LayerDef) (freeMode : Bool) : Option String :=
  if freeMode then none
  else if l.id ∈ ["total-methane", "grdi-v1"] then
    some (if l.id = "total-methane" then "USA" else "IND")
  else none

/-- `renderPOIs` of App.tsx lines 228-272: the labeled point markers render
exactly when the id is "poi-showcase" (the early return inverted). -/
def renderPOIs (l : LayerDef) : Bool :=
  l.id == "poi-showcase"

/-- Everything extra the map renders for a given active layer and free-mode
flag. -/
structure RenderOutput where
  raster : Option ℚ
  maskCode : Option String
  pois : Bool
deriving DecidableEq, Repr

/-- The combined overlay/mask/marker rendering of App.tsx. -/
def renderOutput (l : LayerDef) (freeMode : Bool) : RenderOutput :=
  { raster := renderRaster l,
    maskCode := renderCountryMask l freeMode,
    pois := renderPOIs l }

/-- C7: overlay and mask rendering is a pure function of
`(activeChapter.id, freeMode)` on the catalog (two catalog entries with the
same id render identically); the raster layer is rendered iff the chapter
defines `overlayUrl`, at its configured opacity with default 0.6; the
spotlight mask is rendered exactly when the id is "total-methane" or
"grdi-v1" and free mode is off; the labeled markers render exactly when
the id is "poi-showcase"; any other id renders nothing extra. -/
theorem c7_render_pure_function :
    (∀ l₁ ∈ LAYERS, ∀ l₂ ∈ LAYERS, l₁.id = l₂.id →
      ∀ f : Bool, renderOutput l₁ f = renderOutput l₂ f) ∧
      (∀ l ∈ LAYERS, ∀ f : Bool,
        ((renderOutput l f).raster.isSome ↔ l.url.isSome) ∧
          (renderOutput l f).raster = l.url.map (fun _ => l.opacity.getD 0.6)) ∧
      (∀ (l : LayerDef) (f : Bool),
        ((renderOutput l f).maskCode.isSome ↔
          (l.id = "total-methane" ∨ l.id = "grdi-v1") ∧ f = false)) ∧
      (∀ (l : LayerDef) (f : Bool),
        ((renderOutput l f).pois = true ↔ l.id = "poi-showcase")) := by
  have hinj : ∀ l₁ ∈ LAYERS, ∀ l₂ ∈ LAYERS, l₁.id = l₂.id → l₁ = l₂ := by
    intro l₁ h₁ l₂ h₂ h
    fin_cases h₁ <;> fin_cases h₂ <;> simp_all
  refine ⟨?_, ?_, ?_, ?_⟩
  · intro l₁ h₁ l₂ h₂ h f
    rw [hinj l₁ h₁ l₂ h₂ h]
  · intro l hl f
    fin_cases hl <;>
      exact ⟨by simp [renderOutput, renderRaster],
        by simp [renderOutput, renderRaster]⟩
  · intro l f
    cases f with
    | true => simp [renderOutput, renderCountryMask]
    | false =>
        by_cases h1 : l.id = "total-methane"
        · simp [renderOutput, renderCountryMask, h1]
        · by_cases h2 : l.id = "grdi-v1"
          · simp [renderOutput, renderCountryMask, h1, h2]
          · simp [renderOutput, renderCountryMask, h1, h2]
  · intro l f
    simp [renderOutput, renderPOIs]

/-- Witness for C7 at the "total-methane" catalog entry with free mode off. -/
theorem c7_render_pure_function_witness :
    ((renderOutput LAYERS[1] false).raster.isSome ↔ LAYERS[1].url.isSome) ∧
      (renderOutput LAYERS[1] false).raster =
        LAYERS[1].url.map (fun _ => LAYERS[1].opacity.getD 0.6) ∧
      ((renderOutput LAYERS[1] false).maskCode.isSome ↔
        (LAYERS[1].id = "total-methane" ∨ LAYERS[1].id = "grdi-v1") ∧
          false = false) ∧
      ((renderOutput LAYERS[1] false).pois = true ↔
        LAYERS[1].id = "poi-showcase") :=
  ⟨(c7_render_pure_function.2.1 LAYERS[1]
      (List.getElem_mem (by simp [LAYERS])) false).1,
    (c7_render_pure_function.2.1 LAYERS[1]
      (List.getElem_mem (by simp [LAYERS])) false).2,
    c7_render_pure_function.2.2.1 LAYERS[1] false,
    c7_render_pure_function.2.2.2 LAYERS[1] false⟩
